import Mathlib

/-!
Verification of the serial-protocol core of `tryx_panorama_linux`.

Shallow embedding of `src/data.rs` (frame codec, command-message builders),
`src/screen_setup.rs` (session sequencer, adb push size check) and
`src/app_state.rs` (event application, transfer guard).

Bytes are modelled as `Nat` with explicit `% 256` where the Rust code uses
`u8` wrapping arithmetic, and `% 65536` where it casts `usize` to `u16`.
Rust `String` values are modelled as Lean `String`; `str::len()` (a UTF-8
byte count) is `String.utf8ByteSize`. Timestamps (epoch milliseconds,
`u128` cast to `i64` in the source) are modelled as `Nat`: real epoch
timestamps are far below `2^63`, so the cast is lossless.
-/

-- ===========================================================================
-- Frame codec (src/data.rs)
-- ===========================================================================

/-- `const FRAME_MARKER: u8 = 0x5A` -/
def FRAME_MARKER : Nat := 0x5A

/-- `const ESCAPE_MARKER: u8 = 0x5B` -/
def ESCAPE_MARKER : Nat := 0x5B

/-- `escape_data` from src/data.rs lines 113-129: byte-by-byte stuffing,
`0x5A ↦ 0x5B 0x01`, `0x5B ↦ 0x5B 0x02`, all other bytes unchanged. -/
def escape_data : List Nat → List Nat
  | [] => []
  | b :: rest =>
    (if b = 0x5A then [ESCAPE_MARKER, 0x01]
     else if b = 0x5B then [ESCAPE_MARKER, 0x02]
     else [b]) ++ escape_data rest

/-- `calc_crc` from src/data.rs lines 132-134: `fold(0u8, wrapping_add)`. -/
def calc_crc (data : List Nat) : Nat :=
  data.foldl (fun acc b => (acc + b) % 256) 0

/-- Big-endian bytes of `length as u16` (`u16::to_be_bytes` after the
truncating `as u16` cast in src/data.rs line 140). -/
def u16_be_bytes (n : Nat) : List Nat :=
  [n % 65536 / 256, n % 65536 % 256]

/-- `build_frame` from src/data.rs lines 138-150:
marker, 2-byte big-endian length of the escaped message (truncated to
`u16`), escaped message, CRC of the escaped message, marker. -/
def build_frame (message : List Nat) : List Nat :=
  let escaped := escape_data message
  [FRAME_MARKER] ++ u16_be_bytes escaped.length ++ escaped
    ++ [calc_crc escaped] ++ [FRAME_MARKER]

-- Spec-side descriptions (from the spec's words, for comparison)

/-- Per-byte escape map as the spec words it: "escape replaces each 0x5A
byte with the pair (0x5B, 0x01), each 0x5B byte with the pair
(0x5B, 0x02), and leaves every other byte unchanged". -/
def escByte (b : Nat) : List Nat :=
  if b = 0x5A then [0x5B, 0x01]
  else if b = 0x5B then [0x5B, 0x02]
  else [b]

/-- The escape transformation as described by the spec: concatenation of
the per-byte images. -/
def escape_spec (m : List Nat) : List Nat := m.flatMap escByte

/-- "the 2-byte big-endian length": high byte then low byte. -/
def be16_spec (n : Nat) : List Nat := [n / 256 % 256, n % 256]

/-- "the modulo-256 sum of the bytes". -/
def checksum_spec (l : List Nat) : Nat := l.sum % 256

-- Decoder and well-formedness, used to settle injectivity / no-bare-bytes

/-- Inverse of the escape transformation (not implemented on the sending
side of the source; used here to establish injectivity). -/
def unescape : List Nat → Option (List Nat)
  | [] => some []
  | b :: rest =>
    if b = 0x5B then
      match rest with
      | 1 :: rest2 => (unescape rest2).map (fun l => 0x5A :: l)
      | 2 :: rest2 => (unescape rest2).map (fun l => 0x5B :: l)
      | _ => none
    else if b = 0x5A then none
    else (unescape rest).map (fun l => b :: l)

/-- A byte list has no bare occurrence of a reserved byte: no `0x5A`
anywhere, and every `0x5B` immediately starts a two-byte escape
sequence `0x5B 0x01` or `0x5B 0x02`. -/
def noBareReserved : List Nat → Bool
  | [] => true
  | b :: rest =>
    if b = 0x5A then false
    else if b = 0x5B then
      match rest with
      | c :: rest2 => (c == 1 || c == 2) && noBareReserved rest2
      | [] => false
    else noBareReserved rest

-- ===========================================================================
-- Command message builders (src/data.rs)
-- ===========================================================================

/-- `const CRLF: &str = "\r\n"` -/
def CRLF : String := "\r\n"

/-- `enum ContentType` from src/data.rs (only `Json` is inhabited). -/
inductive ContentType where
  | json
deriving DecidableEq

/-- `ContentType::as_str`. -/
def ContentType.as_str : ContentType → String
  | ContentType.json => "json"

/-- `struct CommandMessage` from src/data.rs lines 27-40. -/
structure CommandMessage where
  cmd_type : String
  seq_number : Int
  ack_number : Int
  content_type : ContentType
  body : String
  date : Int
  file_name : Int
  file_size : Int
  content_range : Int
  counter : Int
  msg_id : Int

/-- `CommandMessage::new` from src/data.rs lines 43-65, with the current
epoch-millisecond time `now` passed explicitly instead of read from the
system clock. -/
def CommandMessage.new (cmd_type : String) (body : String) (now : Nat) :
    CommandMessage :=
  let seq : Int := Int.ofNat (now % 100000)
  let ts : Int := Int.ofNat now
  { cmd_type := cmd_type
    seq_number := seq
    ack_number := -1
    content_type := ContentType.json
    body := body
    date := ts
    file_name := -1
    file_size := -1
    content_range := -1
    counter := -1
    msg_id := -1 }

/-- `CommandMessage::write_header`: `write!(out, "{name}={value}{CRLF}")`
appended to the accumulated string. -/
def write_header (name : String) (value : String) : String :=
  name ++ "=" ++ value ++ CRLF

/-- `CommandMessage::to_bytes` from src/data.rs lines 81-107. The Rust
function returns `msg.into_bytes()` (the UTF-8 bytes of the string);
UTF-8 encoding is injective, so messages are compared as strings. -/
def CommandMessage.to_bytes (m : CommandMessage) : String :=
  "POST " ++ m.cmd_type ++ " 1" ++ CRLF
  ++ write_header "SeqNumber" (toString m.seq_number)
  ++ write_header "AckNumber" (toString m.ack_number)
  ++ write_header "ContentLength" (toString m.body.utf8ByteSize)
  ++ write_header "ContentType" m.content_type.as_str
  ++ write_header "FileName" (toString m.file_name)
  ++ write_header "FileSize" (toString m.file_size)
  ++ write_header "ContentRange" (toString m.content_range)
  ++ write_header "Counter" (toString m.counter)
  ++ write_header "Date" (toString m.date)
  ++ write_header "msgId" (toString m.msg_id)
  ++ CRLF ++ m.body

/-- `build_message` from src/data.rs lines 158-185, with the current
epoch-millisecond time `now` passed explicitly. The Rust code builds one
`headers` string (`format!`) ending in `msgId=-1` without a trailing CRLF,
then `format!("POST {} 1\r\n{}\r\n\r\n{}", cmd_type, headers, json_content)`. -/
def build_message (cmd_type : String) (json_content : String) (now : Nat) :
    String :=
  let seq := now % 100000
  let ts := now
  let headers :=
    "SeqNumber=" ++ toString seq ++ CRLF ++
    "AckNumber=-1" ++ CRLF ++
    "ContentLength=" ++ toString json_content.utf8ByteSize ++ CRLF ++
    "ContentType=json" ++ CRLF ++
    "FileName=-1" ++ CRLF ++
    "FileSize=-1" ++ CRLF ++
    "ContentRange=-1" ++ CRLF ++
    "Counter=-1" ++ CRLF ++
    "Date=" ++ toString ts ++ CRLF ++
    "msgId=-1"
  "POST " ++ cmd_type ++ " 1" ++ CRLF ++ headers ++ CRLF ++ CRLF ++ json_content

/-- The message layout as the spec words it: the request line
`POST c 1`, then the ten header lines in their exact order, each
terminated by CRLF, then one blank CRLF line, then the raw body with no
trailing terminator; `ContentLength` equals the byte length of the body,
`SeqNumber` is the timestamp modulo 100000 and `Date` the timestamp. -/
def message_spec (c : String) (b : String) (t : Nat) : String :=
  (["POST " ++ c ++ " 1",
    "SeqNumber=" ++ toString (t % 100000),
    "AckNumber=-1",
    "ContentLength=" ++ toString b.utf8ByteSize,
    "ContentType=json",
    "FileName=-1",
    "FileSize=-1",
    "ContentRange=-1",
    "Counter=-1",
    "Date=" ++ toString t,
    "msgId=-1"]).foldr (fun line acc => line ++ CRLF ++ acc) (CRLF ++ b)

-- ===========================================================================
-- JSON values and screen configuration (src/screen_setup.rs)
-- ===========================================================================

/-- `serde_json::Value` restricted to the shapes this program builds
(`json!` literals in src/screen_setup.rs). Bodies are kept as JSON trees;
serialization to text happens inside `send_command` and is not needed to
state the sequencing claims. -/
inductive Json where
  | null
  | str (s : String)
  | num (n : Int)
  | arr (elems : List Json)
  | obj (fields : List (String × Json))

/-- `struct ScreenConfig` from src/screen_setup.rs lines 9-20. -/
structure ScreenConfig where
  id : String
  screen_mode : String
  play_mode : String
  ratio : String
  color : String
  align : String
  filter_opacity : Nat
  badges : List String
  sysinfo_display : List String

/-- `impl Default for ScreenConfig` from src/screen_setup.rs lines 22-36. -/
def ScreenConfig.default : ScreenConfig :=
  { id := "Customization"
    screen_mode := "Full Screen"
    play_mode := "Single"
    ratio := "2:1"
    color := "#dcdcdc"
    align := "Left"
    filter_opacity := 100
    badges := ["GPU Badge", "CPU Badge"]
    sysinfo_display := ["CPU Temperature", "GPU Temperature"] }

/-- Body of the `mediaDelete` command
(src/screen_setup.rs lines 136-138): `{ "exclude": [file_name] }`. -/
def mediaDeleteBody (file_name : String) : Json :=
  Json.obj [("exclude", Json.arr [Json.str file_name])]

/-- Body of the `waterBlockScreenId` command
(src/screen_setup.rs lines 151-167). -/
def waterBlockBody (file_name : String) (config : ScreenConfig) : Json :=
  Json.obj [
    ("id", Json.str config.id),
    ("screenMode", Json.str config.screen_mode),
    ("playMode", Json.str config.play_mode),
    ("ratio", Json.str config.ratio),
    ("media", Json.arr [Json.str file_name]),
    ("settings", Json.obj [
      ("color", Json.str config.color),
      ("align", Json.str config.align),
      ("filter", Json.obj [
        ("value", Json.null),
        ("opacity", Json.num (Int.ofNat config.filter_opacity))]),
      ("badges", Json.arr (config.badges.map Json.str))]),
    ("sysinfoDisplay", Json.arr (config.sysinfo_display.map Json.str))]

-- ===========================================================================
-- Session sequencer (src/screen_setup.rs, send_image_commands)
-- ===========================================================================

/-- One observable action of `send_image_commands` against the open port:
a fixed-duration pause, a best-effort buffer clear, or a framed command
write (`send_command` / `send_state_command`: build the message, frame
it, `write_all` + `flush`). -/
inductive Step where
  | sleep (ms : Nat)
  | clearBuffers
  | send (name : String) (body : Json)

/-- `send_image_commands` from src/screen_setup.rs lines 108-180 as its
straight-line sequence of port actions. `telemetry k` is the JSON
serialization of the `SysInfo` snapshot taken by the k-th `send_sysinfo`
call (a fresh snapshot is read from the host on every call, so the
snapshots are modelled as an opaque sequence).

`send_sysinfo` calls `send_state_command(port, "all", &json)`;
`send_state_command` is imported from `crate::data` but its definition is
not part of the sources. Modelled from the spec: a telemetry command
(command name `all`, body = current TelemetrySnapshot serialized to
JSON) built and framed like every other command and written to the
transport. -/
def send_image_commands_steps (file_name : String) (config : ScreenConfig)
    (telemetry : Nat → Json) : List Step :=
  [Step.sleep 100, Step.clearBuffers,
   Step.send "all" (telemetry 0), Step.sleep 200,
   Step.send "mediaDelete" (mediaDeleteBody file_name), Step.sleep 300,
   Step.send "all" (telemetry 1), Step.sleep 200,
   Step.send "waterBlockScreenId" (waterBlockBody file_name config)]
  ++ (List.range 5).flatMap
      (fun i => [Step.sleep 800, Step.send "all" (telemetry (2 + i))])

/-- The command sends of a step list, in order (pauses and buffer clears
are not written to the transport). -/
def sendsOf : List Step → List (String × Json)
  | [] => []
  | Step.sleep _ :: rest => sendsOf rest
  | Step.clearBuffers :: rest => sendsOf rest
  | Step.send n b :: rest => (n, b) :: sendsOf rest

/-- Execute a step list against a transport whose k-th command write
(`write_all` + `flush`) fails exactly when `oracle k = true`. Sleeps
cannot fail and the buffer clear's result is discarded by the source
(`let _ = port.clear(..)`). A failing send propagates immediately through
the `?` operator: the result is the list of commands successfully
written, and whether the whole run succeeded. -/
def runSteps (oracle : Nat → Bool) : List Step → Nat → List (String × Json) × Bool
  | [], _ => ([], true)
  | Step.sleep _ :: rest, k => runSteps oracle rest k
  | Step.clearBuffers :: rest, k => runSteps oracle rest k
  | Step.send n b :: rest, k =>
      if oracle k then ([], false)
      else ((n, b) :: (runSteps oracle rest (k + 1)).1,
            (runSteps oracle rest (k + 1)).2)

/-- The nine command messages a fault-free session writes, in order, as
the spec enumerates them: one `all` telemetry command, the `mediaDelete`
command excluding the just-transferred file, one `all` telemetry
command, the `waterBlockScreenId` configuration command, then exactly
five further `all` telemetry commands. -/
def sequencerSends (file_name : String) (config : ScreenConfig)
    (telemetry : Nat → Json) : List (String × Json) :=
  [("all", telemetry 0),
   ("mediaDelete", mediaDeleteBody file_name),
   ("all", telemetry 1),
   ("waterBlockScreenId", waterBlockBody file_name config),
   ("all", telemetry 2),
   ("all", telemetry 3),
   ("all", telemetry 4),
   ("all", telemetry 5),
   ("all", telemetry 6)]

-- ===========================================================================
-- ADB push size check (src/screen_setup.rs, adb_push)
-- ===========================================================================

/-- Whitespace recognizer for `str::trim` (the characters that can occur
around `adb shell stat` output: space, tab, newline, carriage return). -/
def isWs (c : Char) : Bool :=
  c == ' ' || c == '\t' || c == '\n' || c == '\r'

/-- `str::trim`: strip leading and trailing whitespace. -/
def trimChars (l : List Char) : List Char :=
  ((l.dropWhile isWs).reverse.dropWhile isWs).reverse

/-- `str::parse::<u64>` on decimal digit strings: some value when the
string is nonempty and all digits, `none` otherwise. -/
def parseNat (l : List Char) : Option Nat :=
  if l.isEmpty then none
  else if l.all Char.isDigit then
    some (l.foldl (fun a c => a * 10 + (c.toNat - 48)) 0)
  else none

/-- Parse of the `adb shell stat -c %s` output in src/screen_setup.rs
lines 84-87: `String::from_utf8_lossy(..).trim().parse().unwrap_or(0)`. -/
def parse_remote_size (stdout : String) : Nat :=
  (parseNat (trimChars stdout.data)).getD 0

/-- The size-verification tail of `adb_push`
(src/screen_setup.rs lines 77-97): when the `stat` command reports
success its output is parsed and compared with the local file size;
a difference is a hard failure (`anyhow::bail!`); when the `stat`
command itself fails, no comparison happens and the push succeeds. -/
def size_check (expected_size : Nat) (stat_success : Bool)
    (stat_stdout : String) : Except String Unit :=
  if stat_success then
    let remote_size := parse_remote_size stat_stdout
    if remote_size ≠ expected_size then
      Except.error ("File size mismatch: local=" ++ toString expected_size
        ++ ", remote=" ++ toString remote_size)
    else Except.ok ()
  else Except.ok ()

/-- `adb_push` from src/screen_setup.rs lines 49-104 as a function of the
outcomes of its three external commands (`adb wait-for-device`,
`adb push`, `adb shell stat`). -/
def adb_push (wait_success : Bool) (push_success : Bool)
    (push_stderr : String) (expected_size : Nat) (stat_success : Bool)
    (stat_stdout : String) : Except String Unit :=
  if ¬ wait_success then Except.error "ADB wait-for-device failed"
  else if ¬ push_success then
    Except.error ("ADB push failed: " ++ push_stderr)
  else size_check expected_size stat_success stat_stdout

-- ===========================================================================
-- Application state and worker (src/app_state.rs)
-- ===========================================================================

/-- `enum AppMessage` from src/app_state.rs lines 3-9. The `f32` progress
fraction is modelled as a rational; every fraction the program sends
(0.0, 0.1, 0.2, 0.5, 1.0) is exactly representable in `f32`, so the
model is lossless on the values that occur. -/
inductive AppMessage where
  | log (text : String)
  | progress (fraction : ℚ) (status : String)
  | success (msg : String)
  | error (msg : String)

/-- The externally visible fields of `struct AioCoolerApp`
(src/app_state.rs lines 12-27). The channel endpoints are represented by
the event lists exchanged through them. -/
structure AioCoolerApp where
  serial_device : String
  selected_image : Option String
  screen_config : ScreenConfig
  is_processing : Bool
  progress : ℚ
  status_message : String
  log_messages : List String

/-- `impl Default for AioCoolerApp` (src/app_state.rs lines 29-44),
visible state only. -/
def AioCoolerApp.default : AioCoolerApp :=
  { serial_device := "/dev/ttyACM0"
    selected_image := none
    screen_config := ScreenConfig.default
    is_processing := false
    progress := 0
    status_message := "Ready"
    log_messages := [] }

/-- The body of the `match msg` in `process_messages`
(src/app_state.rs lines 49-70): how one drained event updates the
state. `Vec::push` appends at the back and `Vec::remove(0)` discards the
front (oldest) element. -/
def apply_message (s : AioCoolerApp) (m : AppMessage) : AioCoolerApp :=
  match m with
  | AppMessage.log text =>
      let l := s.log_messages ++ [text]
      { s with log_messages := if l.length > 100 then l.drop 1 else l }
  | AppMessage.progress p status =>
      { s with progress := p, status_message := status }
  | AppMessage.success msg =>
      { s with is_processing := false, progress := 1, status_message := msg }
  | AppMessage.error msg =>
      { s with is_processing := false, progress := 0,
               status_message := "Error: " ++ msg }

/-- `process_messages` (src/app_state.rs lines 47-72): drain the queued
events in order and apply each to the state. -/
def process_messages (s : AioCoolerApp) (queued : List AppMessage) :
    AioCoolerApp :=
  queued.foldl apply_message s

/-- The data moved into the worker thread spawned by `start_transfer`
(src/app_state.rs lines 88-92). -/
structure WorkerSpawn where
  image_path : String
  serial_device : String
  config : ScreenConfig

/-- `start_transfer` from src/app_state.rs lines 74-91 (its foreground
part, up to and including `thread::spawn`): the updated state, and the
worker dispatched (if any). The foreground function itself sends no
event on the channel; events are produced only inside the spawned
worker. -/
def start_transfer (s : AioCoolerApp) : AioCoolerApp × Option WorkerSpawn :=
  if s.is_processing then (s, none)
  else
    match s.selected_image with
    | none => ({ s with status_message := "No image selected" }, none)
    | some image_path =>
        ({ s with is_processing := true, progress := 0,
                  status_message := "Starting transfer..." },
         some { image_path := image_path,
                serial_device := s.serial_device,
                config := s.screen_config })

/-- The event trace of the worker closure spawned by `start_transfer`
(src/app_state.rs lines 92-136), as a function of the outcomes of its
fallible steps: MD5 hashing, `fs::metadata`, `adb_push`, and
`send_image_commands`. Each `?` short-circuits to the final `match`,
which sends exactly one terminal event: `Success` on `Ok`, `Error` on
`Err`. Error strings stand for the `format!("{:#}", e)` rendering of the
`anyhow` error. `file_label` stands for the `format!("File: {} ({}
bytes, MD5: {})", ..)` log line. -/
def worker_events (md5_res : Except String String)
    (meta_res : Except String Nat) (push_res : Except String Unit)
    (serial_res : Except String Unit) (file_label : String) :
    List AppMessage :=
  let pre := [AppMessage.progress (1/10) "Calculating MD5...",
              AppMessage.log "Calculating file MD5..."]
  match md5_res with
  | Except.error e => pre ++ [AppMessage.error e]
  | Except.ok _ =>
    match meta_res with
    | Except.error e => pre ++ [AppMessage.error e]
    | Except.ok _ =>
      let pre2 := pre ++ [AppMessage.log file_label,
        AppMessage.progress (2/10) "Pushing to device via ADB...",
        AppMessage.log "Starting ADB push..."]
      match push_res with
      | Except.error e => pre2 ++ [AppMessage.error e]
      | Except.ok _ =>
        let pre3 := pre2 ++ [
          AppMessage.progress (1/2) "Sending serial commands...",
          AppMessage.log "Sending serial commands..."]
        match serial_res with
        | Except.error e => pre3 ++ [AppMessage.error e]
        | Except.ok _ =>
            pre3 ++ [AppMessage.log "Transfer complete!",
                     AppMessage.success "Transfer complete!"]

/-- Recognizer for terminal `Error` events. -/
def isErrorEvent : AppMessage → Bool
  | AppMessage.error _ => true
  | _ => false

/-- Recognizer for terminal `Success` events. -/
def isSuccessEvent : AppMessage → Bool
  | AppMessage.success _ => true
  | _ => false

-- Concrete states used to exercise the guard and event-application claims

/-- A state with a transfer already in flight. -/
def busyApp : AioCoolerApp :=
  { AioCoolerApp.default with
      selected_image := some "/tmp/a.png"
      is_processing := true
      progress := 1/2
      status_message := "Sending serial commands..." }

/-- An idle state with no image selected. -/
def idleNoImageApp : AioCoolerApp := AioCoolerApp.default

/-- A state whose log window is full (exactly 100 lines). -/
def fullLogApp : AioCoolerApp :=
  { AioCoolerApp.default with log_messages := List.replicate 100 "line" }

-- ===========================================================================
-- Helper lemmas
-- ===========================================================================

/-- The code's escape equals the spec's per-byte concatenation form. -/
theorem escape_data_eq_spec (m : List Nat) : escape_data m = escape_spec m := by
  induction m with
  | nil => rfl
  | cons b rest ih =>
      simp only [escape_data, escape_spec, List.flatMap_cons, escByte,
        ESCAPE_MARKER] at *
      rw [ih]

/-- `calc_crc` with an arbitrary accumulator below the modulus. -/
theorem calc_crc_foldl (l : List Nat) :
    ∀ acc : Nat, acc < 256 →
      l.foldl (fun a b => (a + b) % 256) acc = (acc + l.sum) % 256 := by
  induction l with
  | nil =>
      intro acc h
      simp [Nat.mod_eq_of_lt h]
  | cons b rest ih =>
      intro acc h
      simp only [List.foldl_cons, List.sum_cons,
        ih ((acc + b) % 256) (Nat.mod_lt _ (by omega))]
      omega

/-- The code's checksum is the spec's modulo-256 byte sum. -/
theorem calc_crc_eq_spec (l : List Nat) : calc_crc l = checksum_spec l := by
  simpa [calc_crc, checksum_spec] using calc_crc_foldl l 0 (by omega)

/-- The truncating `as u16` + `to_be_bytes` equals the spec's 2-byte
big-endian encoding (which keeps the low 16 bits of the value). -/
theorem u16_be_bytes_eq_spec (n : Nat) : u16_be_bytes n = be16_spec n := by
  have h1 : n % 65536 / 256 = n / 256 % 256 := by
    have := Nat.mod_mul_right_div_self n 256 256
    simpa using this
  have h2 : n % 65536 % 256 = n % 256 :=
    Nat.mod_mod_of_dvd n (by norm_num)
  simp [u16_be_bytes, be16_spec, h1, h2]

/-- The escape transformation round-trips through its decoder. -/
theorem unescape_escape (p : List Nat) : unescape (escape_data p) = some p := by
  induction p with
  | nil => rfl
  | cons b rest ih =>
      by_cases hb : b = 0x5A
      · subst hb
        have h : escape_data (0x5A :: rest) = 0x5B :: 0x01 :: escape_data rest := by
          simp [escape_data, ESCAPE_MARKER]
        rw [h, unescape.eq_def]
        simp [ih]
      · by_cases hb2 : b = 0x5B
        · subst hb2
          have h : escape_data (0x5B :: rest) = 0x5B :: 0x02 :: escape_data rest := by
            simp [escape_data, ESCAPE_MARKER]
          rw [h, unescape.eq_def]
          simp [ih]
        · have h : escape_data (b :: rest) = b :: escape_data rest := by
            simp [escape_data, ESCAPE_MARKER, hb, hb2]
          rw [h, unescape.eq_def]
          simp [hb, hb2, ih]

/-- The escaped output of any payload is free of bare reserved bytes. -/
theorem noBareReserved_escape (p : List Nat) :
    noBareReserved (escape_data p) = true := by
  induction p with
  | nil => rfl
  | cons b rest ih =>
      by_cases hb : b = 0x5A
      · subst hb
        have h : escape_data (0x5A :: rest) = 0x5B :: 0x01 :: escape_data rest := by
          simp [escape_data, ESCAPE_MARKER]
        rw [h, noBareReserved.eq_def]
        simp [ih]
      · by_cases hb2 : b = 0x5B
        · subst hb2
          have h : escape_data (0x5B :: rest) = 0x5B :: 0x02 :: escape_data rest := by
            simp [escape_data, ESCAPE_MARKER]
          rw [h, noBareReserved.eq_def]
          simp [ih]
        · have h : escape_data (b :: rest) = b :: escape_data rest := by
            simp [escape_data, ESCAPE_MARKER, hb, hb2]
          rw [h, noBareReserved.eq_def]
          simp [hb, hb2, ih]

/-- Injectivity of the escape transformation. -/
theorem escape_data_injective (p1 p2 : List Nat)
    (h : escape_data p1 = escape_data p2) : p1 = p2 := by
  have h1 := unescape_escape p1
  have h2 := unescape_escape p2
  rw [h, h2] at h1
  exact ((Option.some.injEq _ _).mp h1).symm

/-- Escaping a run of a non-reserved byte leaves it unchanged. -/
theorem escape_data_replicate_A (n : Nat) :
    escape_data (List.replicate n 0x41) = List.replicate n 0x41 := by
  induction n with
  | zero => rfl
  | succ n ih =>
      simp only [List.replicate_succ, escape_data]
      norm_num [ih]

/-- A transport that never fails lets every command through: the run
writes exactly the step list's sends and succeeds. -/
theorem runSteps_ok (steps : List Step) (oracle : Nat → Bool)
    (h : ∀ i, oracle i = false) :
    ∀ k, runSteps oracle steps k = (sendsOf steps, true) := by
  induction steps with
  | nil => intro k; rfl
  | cons s rest ih =>
      intro k
      cases s with
      | sleep ms => simpa [runSteps, sendsOf] using ih k
      | clearBuffers => simpa [runSteps, sendsOf] using ih k
      | send n b => simp [runSteps, sendsOf, h k, ih (k + 1)]

/-- If the first transport failure hits the j-th command write, the run
writes exactly the first j sends, skips every later step, and fails. -/
theorem runSteps_abort (steps : List Step) :
    ∀ (oracle : Nat → Bool) (k j : Nat),
      (∀ i, i < j → oracle (k + i) = false) → oracle (k + j) = true →
      j < (sendsOf steps).length →
      runSteps oracle steps k = ((sendsOf steps).take j, false) := by
  induction steps with
  | nil =>
      intro oracle k j _ _ h3
      simp [sendsOf] at h3
  | cons s rest ih =>
      intro oracle k j h1 h2 h3
      cases s with
      | sleep ms =>
          simp only [sendsOf] at h3 ⊢
          simpa [runSteps] using ih oracle k j h1 h2 h3
      | clearBuffers =>
          simp only [sendsOf] at h3 ⊢
          simpa [runSteps] using ih oracle k j h1 h2 h3
      | send n b =>
          cases j with
          | zero =>
              have hk : oracle k = true := by simpa using h2
              simp [runSteps, hk, sendsOf]
          | succ j2 =>
              have hk : oracle k = false := by
                simpa using h1 0 (Nat.succ_pos j2)
              have ha : ∀ i, i < j2 → oracle (k + 1 + i) = false := by
                intro i hi
                have h := h1 (i + 1) (by omega)
                rw [show k + (i + 1) = k + 1 + i by omega] at h
                exact h
              have hb : oracle (k + 1 + j2) = true := by
                rw [show k + 1 + j2 = k + (j2 + 1) by omega]
                exact h2
              have hc : j2 < (sendsOf rest).length := by
                simp only [sendsOf, List.length_cons] at h3
                omega
              simp [runSteps, hk, sendsOf, ih oracle (k + 1) j2 ha hb hc]

/-- The sequencer's step list carries exactly the nine sends the spec
enumerates, in the spec's order. -/
theorem sendsOf_send_image_commands (file_name : String)
    (config : ScreenConfig) (telemetry : Nat → Json) :
    sendsOf (send_image_commands_steps file_name config telemetry) =
      sequencerSends file_name config telemetry := by
  have hr : List.range 5 = [0, 1, 2, 3, 4] := rfl
  simp [send_image_commands_steps, sendsOf, sequencerSends, hr]

/-- `toString` on an `Int` built from a `Nat` renders the `Nat`. -/
theorem toString_int_ofNat (n : Nat) : toString (Int.ofNat n) = toString n := rfl

-- ===========================================================================
-- Claim theorems
-- ===========================================================================

/-- C1: for every byte sequence m the frame builder produces the marker
byte 0x5A, the 2-byte big-endian length of escape(m), escape(m), the
modulo-256 sum of the bytes of escape(m), and the marker byte 0x5A,
where escape maps 0x5A to (0x5B, 0x01), 0x5B to (0x5B, 0x02) and keeps
every other byte; for [0x5A, 0x5B, 0x41] the escaped payload is
[0x5B, 0x01, 0x5B, 0x02, 0x41], the length field encodes 5, and the
checksum byte is (0x5B + 0x01 + 0x5B + 0x02 + 0x41) mod 256. -/
theorem C1_frame_builder :
    (∀ m : List Nat, build_frame m =
      [0x5A] ++ be16_spec (escape_spec m).length ++ escape_spec m
        ++ [checksum_spec (escape_spec m)] ++ [0x5A]) ∧
    escape_spec [0x5A, 0x5B, 0x41] = [0x5B, 0x01, 0x5B, 0x02, 0x41] ∧
    (escape_spec [0x5A, 0x5B, 0x41]).length = 5 ∧
    build_frame [0x5A, 0x5B, 0x41] =
      [0x5A, 0, 5] ++ [0x5B, 0x01, 0x5B, 0x02, 0x41]
        ++ [(0x5B + 0x01 + 0x5B + 0x02 + 0x41) % 256] ++ [0x5A] := by
  refine ⟨?_, by decide, by decide, by decide⟩
  intro m
  simp [build_frame, FRAME_MARKER, escape_data_eq_spec, calc_crc_eq_spec,
    u16_be_bytes_eq_spec]

/-- C2: the escape transformation is injective, and its output never
contains a bare occurrence of either reserved byte (no 0x5A at all, and
every 0x5B only as the first byte of a two-byte escape sequence). -/
theorem C2_escape_injective_no_bare :
    (∀ p1 p2 : List Nat, p1 ≠ p2 → escape_data p1 ≠ escape_data p2) ∧
    (∀ p : List Nat, noBareReserved (escape_data p) = true) := by
  refine ⟨?_, noBareReserved_escape⟩
  intro p1 p2 hne h
  exact hne (escape_data_injective p1 p2 h)

/-- Witness for C2 at concrete payloads. -/
theorem C2_escape_injective_no_bare_witness :
    escape_data [0x00] ≠ escape_data [0x01] ∧
    noBareReserved (escape_data [0x5A, 0x5B, 0x41]) = true :=
  ⟨C2_escape_injective_no_bare.1 [0x00] [0x01] (by decide),
   C2_escape_injective_no_bare.2 [0x5A, 0x5B, 0x41]⟩

/-- C3: the claim says the frame builder fails or guards when the
escaped payload exceeds 65,535 bytes and never silently emits a frame
whose 2-byte length field differs from the escaped payload's true byte
count. The code has no such guard: `escaped.len() as u16` silently
truncates. At a 65,536-byte message (no byte of which needs escaping)
the escaped payload has length 65,536 while the emitted frame carries
length field 0x0000 — the frame is produced anyway. -/
theorem C3_silent_length_truncation :
    (escape_data (List.replicate 65536 0x41)).length = 65536 ∧
    build_frame (List.replicate 65536 0x41) =
      [0x5A, 0, 0] ++ List.replicate 65536 0x41
        ++ [calc_crc (List.replicate 65536 0x41), 0x5A] := by
  have he := escape_data_replicate_A 65536
  constructor
  · rw [he]
    exact List.length_replicate 65536 0x41
  · simp only [build_frame, he, FRAME_MARKER, u16_be_bytes,
      List.length_replicate]
    norm_num

/-- C4: `build_message c b t` is exactly the request line `POST c 1`
followed by the ten CRLF-terminated header lines SeqNumber, AckNumber,
ContentLength, ContentType, FileName, FileSize, ContentRange, Counter,
Date, msgId in that order, one blank CRLF line, and the raw body with
no trailing terminator, with `ContentLength` the byte length of the
body; for command `mediaDelete` with body `{"exclude":["a.png"]}` the
`ContentLength` header is 21 and the request line reads
`POST mediaDelete 1`. -/
theorem C4_build_message_layout :
    (∀ (c b : String) (t : Nat), build_message c b t = message_spec c b t) ∧
    build_message "mediaDelete" "\x7b\"exclude\":[\"a.png\"]\x7d" 0 =
      "POST mediaDelete 1\r\nSeqNumber=0\r\nAckNumber=-1\r\nContentLength=21\r\nContentType=json\r\nFileName=-1\r\nFileSize=-1\r\nContentRange=-1\r\nCounter=-1\r\nDate=0\r\nmsgId=-1\r\n\r\n\x7b\"exclude\":[\"a.png\"]\x7d" ∧
    "\x7b\"exclude\":[\"a.png\"]\x7d".utf8ByteSize = 21 := by
  refine ⟨?_, by rfl, by rfl⟩
  intro c b t
  simp [build_message, message_spec, String.append_assoc]

/-- C5: a fault-free session-sequencer run writes exactly one `all`
telemetry command, one `mediaDelete` command excluding the transferred
file, one `all` telemetry command, one `waterBlockScreenId` command
carrying the nested screen configuration, then exactly 5 further `all`
telemetry commands, each directly preceded in the step sequence by an
800 ms pause — no other commands, in no other order. -/
theorem C5_sequencer_order (file_name : String) (config : ScreenConfig)
    (telemetry : Nat → Json) (oracle : Nat → Bool)
    (h : ∀ i, oracle i = false) :
    runSteps oracle (send_image_commands_steps file_name config telemetry) 0 =
      (sequencerSends file_name config telemetry, true) ∧
    send_image_commands_steps file_name config telemetry =
      [Step.sleep 100, Step.clearBuffers,
       Step.send "all" (telemetry 0), Step.sleep 200,
       Step.send "mediaDelete"
         (Json.obj [("exclude", Json.arr [Json.str file_name])]),
       Step.sleep 300,
       Step.send "all" (telemetry 1), Step.sleep 200,
       Step.send "waterBlockScreenId" (waterBlockBody file_name config),
       Step.sleep 800, Step.send "all" (telemetry 2),
       Step.sleep 800, Step.send "all" (telemetry 3),
       Step.sleep 800, Step.send "all" (telemetry 4),
       Step.sleep 800, Step.send "all" (telemetry 5),
       Step.sleep 800, Step.send "all" (telemetry 6)] := by
  constructor
  · rw [runSteps_ok _ _ h, sendsOf_send_image_commands]
  · have hr : List.range 5 = [0, 1, 2, 3, 4] := rfl
    simp [send_image_commands_steps, mediaDeleteBody, hr]

/-- Witness for C5 on a concrete file name, configuration, telemetry
stream and fault-free transport. -/
theorem C5_sequencer_order_witness :
    runSteps (fun _ => false)
      (send_image_commands_steps "a.png" ScreenConfig.default
        (fun _ => Json.null)) 0 =
      (sequencerSends "a.png" ScreenConfig.default (fun _ => Json.null),
       true) :=
  (C5_sequencer_order "a.png" ScreenConfig.default (fun _ => Json.null)
    (fun _ => false) (fun _ => rfl)).1

/-- C6: when some command write fails, every remaining step is skipped
(the commands written are exactly those before the failing one) and the
worker emits exactly one terminal `Error` event and no `Success` event.
The `j = 6` instance (see the witness) is the transport failing on the
3rd of the 5 sustained keepalives: keepalives 4 and 5 (sends 7 and 8)
are never attempted. -/
theorem C6_abort_on_failure (file_name : String) (config : ScreenConfig)
    (telemetry : Nat → Json) (oracle : Nat → Bool) (j : Nat)
    (md5_hash file_label e : String) (size : Nat)
    (h1 : ∀ i, i < j → oracle i = false) (h2 : oracle j = true)
    (h3 : j < 9) :
    runSteps oracle (send_image_commands_steps file_name config telemetry) 0 =
      ((sequencerSends file_name config telemetry).take j, false) ∧
    (worker_events (Except.ok md5_hash) (Except.ok size) (Except.ok ())
        (Except.error e) file_label).countP isErrorEvent = 1 ∧
    (worker_events (Except.ok md5_hash) (Except.ok size) (Except.ok ())
        (Except.error e) file_label).countP isSuccessEvent = 0 := by
  refine ⟨?_, ?_, ?_⟩
  · have habort := runSteps_abort
      (send_image_commands_steps file_name config telemetry) oracle 0 j
      (by simpa using h1) (by simpa using h2)
      (by rw [sendsOf_send_image_commands]; simpa [sequencerSends] using h3)
    rw [sendsOf_send_image_commands] at habort
    exact habort
  · simp [worker_events, isErrorEvent, isSuccessEvent]
  · simp [worker_events, isErrorEvent, isSuccessEvent]

/-- Witness for C6: the transport fails on the 3rd sustained keepalive
(the 7th command, index 6); only the first 6 commands are written. -/
theorem C6_abort_on_failure_witness :
    runSteps (fun k => k == 6)
      (send_image_commands_steps "a.png" ScreenConfig.default
        (fun _ => Json.null)) 0 =
      ((sequencerSends "a.png" ScreenConfig.default
        (fun _ => Json.null)).take 6, false) ∧
    (worker_events (Except.ok "0f343b0931") (Except.ok 1024)
        (Except.ok ()) (Except.error "Failed to open serial port")
        "File: a.png (1024 bytes, MD5: 0f343b0931)").countP
      isErrorEvent = 1 ∧
    (worker_events (Except.ok "0f343b0931") (Except.ok 1024)
        (Except.ok ()) (Except.error "Failed to open serial port")
        "File: a.png (1024 bytes, MD5: 0f343b0931)").countP
      isSuccessEvent = 0 :=
  C6_abort_on_failure "a.png" ScreenConfig.default (fun _ => Json.null)
    (fun k => k == 6) 6 "0f343b0931"
    "File: a.png (1024 bytes, MD5: 0f343b0931)"
    "Failed to open serial port" 1024
    (by decide) (by decide) (by decide)

/-- C7 counterexample: the claim says a post-push size mismatch detected
by a successful remote size check is "not necessarily fatal". In the
code it is always fatal: with a successful `adb wait-for-device`, a
successful `adb push`, a local size of 4 bytes, and a successful `stat`
reporting 5 bytes, `adb_push` returns the size-mismatch error via
`anyhow::bail!` rather than merely logging it. -/
theorem C7_mismatch_is_fatal_counterexample :
    adb_push true true "" 4 true "5" =
      Except.error "File size mismatch: local=4, remote=5" := by
  rfl

/-- C7 amended: when the remote size check succeeds and the reported
remote size differs from the local size, `adb_push` fails with the
size-mismatch error; only when the `stat` command itself fails is the
comparison skipped and the push reported successful. -/
theorem C7_size_mismatch_behavior (expected : Nat) (stat_stdout : String) :
    (parse_remote_size stat_stdout ≠ expected →
      adb_push true true "" expected true stat_stdout =
        Except.error ("File size mismatch: local=" ++ toString expected
          ++ ", remote=" ++ toString (parse_remote_size stat_stdout))) ∧
    adb_push true true "" expected false stat_stdout = Except.ok () := by
  constructor
  · intro h
    simp [adb_push, size_check, h]
  · simp [adb_push, size_check]

/-- Witness for C7 at a concrete mismatch (local 4 bytes, remote 5). -/
theorem C7_size_mismatch_behavior_witness :
    adb_push true true "" 4 true "5" =
      Except.error ("File size mismatch: local=" ++ toString 4
        ++ ", remote=" ++ toString (parse_remote_size "5")) ∧
    adb_push true true "" 4 false "5" = Except.ok () :=
  ⟨(C7_size_mismatch_behavior 4 "5").1 (by decide),
   (C7_size_mismatch_behavior 4 "5").2⟩

/-- C8: with the in-flight guard set, `start_transfer` returns the state
unchanged and spawns no worker (so no events can be emitted); with the
guard clear and no image selected, it only sets the status text and
spawns no worker — the guard stays clear and no `Error` event exists. -/
theorem C8_start_transfer_guard (s : AioCoolerApp) :
    (s.is_processing = true → start_transfer s = (s, none)) ∧
    (s.is_processing = false → s.selected_image = none →
      start_transfer s =
        ({ s with status_message := "No image selected" }, none)) := by
  constructor
  · intro h
    simp [start_transfer, h]
  · intro h1 h2
    simp [start_transfer, h1, h2]

/-- Witness for C8: a busy state is left untouched; an idle state with
no selected image only gets its status text replaced. -/
theorem C8_start_transfer_guard_witness :
    start_transfer busyApp = (busyApp, none) ∧
    start_transfer idleNoImageApp =
      ({ idleNoImageApp with status_message := "No image selected" },
       none) :=
  ⟨(C8_start_transfer_guard busyApp).1 rfl,
   (C8_start_transfer_guard idleNoImageApp).2 rfl rfl⟩

/-- C9: applying any drained event keeps the log window at no more than
100 lines; when the window is full a new log line discards the oldest
line first; a `Progress` event sets only the fractional progress and
status text; `Success` clears the in-flight guard and sets progress to
1.0; `Error` clears the in-flight guard and resets progress to 0.0. -/
theorem C9_event_application (s : AioCoolerApp) (m : AppMessage)
    (t st msg : String) (p : ℚ) :
    (s.log_messages.length ≤ 100 →
      (apply_message s m).log_messages.length ≤ 100) ∧
    (s.log_messages.length = 100 →
      apply_message s (AppMessage.log t) =
        { s with log_messages := (s.log_messages ++ [t]).drop 1 }) ∧
    apply_message s (AppMessage.progress p st) =
      { s with progress := p, status_message := st } ∧
    apply_message s (AppMessage.success msg) =
      { s with is_processing := false, progress := 1,
               status_message := msg } ∧
    apply_message s (AppMessage.error msg) =
      { s with is_processing := false, progress := 0,
               status_message := "Error: " ++ msg } := by
  refine ⟨?_, ?_, rfl, rfl, rfl⟩
  · intro h
    cases m with
    | log text =>
        simp only [apply_message]
        split
        · simp
          omega
        · rename_i hlen
          simp at hlen ⊢
          omega
    | progress p2 st2 => simpa [apply_message] using h
    | success m2 => simpa [apply_message] using h
    | error m2 => simpa [apply_message] using h
  · intro h
    simp [apply_message, h]

/-- Witness for C9 on a full log window and concrete events. -/
theorem C9_event_application_witness :
    (apply_message fullLogApp (AppMessage.log "new")).log_messages.length
        ≤ 100 ∧
    apply_message fullLogApp (AppMessage.log "new") =
      { fullLogApp with
          log_messages := (fullLogApp.log_messages ++ ["new"]).drop 1 } :=
  ⟨(C9_event_application fullLogApp (AppMessage.log "new") "new" "s" "m"
      (1/2)).1 (by decide),
   (C9_event_application fullLogApp (AppMessage.log "new") "new" "s" "m"
      (1/2)).2.1 (by decide)⟩

/-- The reserved header fields render as the literal `-1`. -/
theorem toString_int_neg_one : toString (-1 : Int) = "-1" := rfl

/-- C10: the two command-message builders are equivalent — for every
command name, body and epoch-millisecond timestamp, the bytes of
`CommandMessage::new(c, b).to_bytes()` equal the bytes of
`build_message(c, b)` when both draw `SeqNumber` (t mod 100000) and
`Date` (t) from the same timestamp t. -/
theorem C10_builders_equivalent (c b : String) (t : Nat) :
    CommandMessage.to_bytes (CommandMessage.new c b t) =
      build_message c b t := by
  simp only [CommandMessage.to_bytes, CommandMessage.new, build_message,
    write_header, ContentType.as_str, CRLF, toString_int_ofNat,
    toString_int_neg_one, String.append_assoc]
  rw [show ("SeqNumber=" : String) = "SeqNumber" ++ "=" from rfl,
    show ("AckNumber=-1" : String) = "AckNumber" ++ "=" ++ "-1" from rfl,
    show ("ContentLength=" : String) = "ContentLength" ++ "=" from rfl,
    show ("ContentType=json" : String) = "ContentType" ++ "=" ++ "json" from rfl,
    show ("FileName=-1" : String) = "FileName" ++ "=" ++ "-1" from rfl,
    show ("FileSize=-1" : String) = "FileSize" ++ "=" ++ "-1" from rfl,
    show ("ContentRange=-1" : String) = "ContentRange" ++ "=" ++ "-1" from rfl,
    show ("Counter=-1" : String) = "Counter" ++ "=" ++ "-1" from rfl,
    show ("Date=" : String) = "Date" ++ "=" from rfl,
    show ("msgId=-1" : String) = "msgId" ++ "=" ++ "-1" from rfl]
  simp only [String.append_assoc]
